import Mathlib

/-!
Shallow embedding of the rule-based audio classification engine of the
spotify-dashboard tele-bot module:

* genre detection   — src/modules/tele-bot/src/detector/genre.rs
* mood detection    — src/modules/tele-bot/src/detector/mood.rs
* language lookup   — src/modules/tele-bot/src/detector/language.rs

The Rust code only compares `f32` feature values against constant decimal
thresholds and accumulates integer-valued weights (1.0, 2.0, 5.0), so every
arithmetic step it performs is exact; we model all numeric values as
rationals (`ℚ`), which preserves the comparisons and sums exactly.
Machine `u32` popularity becomes `ℕ`, Rust `&[String]` becomes `List String`,
and `Option<&str>` becomes `Option String`.
-/

namespace SpotifyDashboard

/-- Audio features from the Spotify API (`struct AudioFeatures`, genre.rs). -/
structure AudioFeatures where
  tempo : ℚ
  energy : ℚ
  valence : ℚ
  danceability : ℚ
  acousticness : ℚ
  instrumentalness : ℚ
  loudness : ℚ
  speechiness : ℚ
deriving DecidableEq

/-- `enum Genre` (genre.rs), in source declaration order. -/
inductive Genre where
  | Ballad
  | Pop
  | Rock
  | Edm
  | HipHop
  | RnB
  | Jazz
  | Classical
  | Acoustic
  | LoFi
  | Indie
  | Metal
  | Unknown
deriving DecidableEq, Repr

/-- `struct GenreScores` (genre.rs): the per-genre raw-score breakdown. -/
structure GenreScores where
  ballad : ℚ
  pop : ℚ
  rock : ℚ
  edm : ℚ
  hiphop : ℚ
  rnb : ℚ
  jazz : ℚ
  classical : ℚ
  acoustic : ℚ
  lofi : ℚ
  indie : ℚ
  metal : ℚ
deriving DecidableEq

/-- `struct GenreDetection` (genre.rs). -/
structure GenreDetection where
  genre : Genre
  confidence : ℚ
  scores : GenreScores
deriving DecidableEq

/-- `enum Mood` (mood.rs), in source declaration order. -/
inductive Mood where
  | Happy
  | Sad
  | Energetic
  | Calm
  | Angry
  | Melancholic
  | Peaceful
  | Romantic
  | Unknown
deriving DecidableEq, Repr

/-- `struct MoodScores` (mood.rs): the per-mood raw-score breakdown. -/
structure MoodScores where
  happy : ℚ
  sad : ℚ
  energetic : ℚ
  calm : ℚ
  angry : ℚ
  melancholic : ℚ
  peaceful : ℚ
  romantic : ℚ
deriving DecidableEq

/-- `struct MoodDetection` (mood.rs). -/
structure MoodDetection where
  mood : Mood
  confidence : ℚ
  scores : MoodScores
deriving DecidableEq

/-! ### String containment (Rust `str::contains`) -/

/-- `containsSub pat hay` holds when `pat` occurs as a contiguous substring of
`hay` (the semantics of Rust `str::contains` on the character sequence). -/
def containsSub (pat : List Char) : List Char → Bool
  | [] => pat.isEmpty
  | c :: rest => pat.isPrefixOf (c :: rest) || containsSub pat rest

/-- Rust `String::contains` on our strings. -/
def strContains (hay pat : String) : Bool := containsSub pat.data hay.data

/-- Rust `str::to_lowercase` (ASCII range), as a map over the character list;
this is the same function as `String.toLower` (`String.map Char.toLower`),
spelled over `List Char` so that it evaluates by `decide`. -/
def to_lowercase (s : String) : String := String.mk (s.data.map Char.toLower)

/-- Rust `str::to_uppercase` (ASCII range), as a map over the character list;
the same function as `String.toUpper`, spelled so that it evaluates by
`decide`. -/
def to_uppercase (s : String) : String := String.mk (s.data.map Char.toUpper)

/-! ### Genre scoring (genre.rs lines 172–411) -/

/-- `artist_genre_bonus` (genre.rs): 5.0 when any artist tag, lower-cased,
contains any keyword as a substring; 0.0 otherwise. -/
def artist_genre_bonus (artist_genres : List String) (keywords : List String) : ℚ :=
  if artist_genres.any (fun genre =>
      keywords.any (fun keyword => strContains (to_lowercase genre) keyword)) then 5 else 0

/-- `score_ballad` (genre.rs). -/
def score_ballad (f : AudioFeatures) (artist_genres : List String) : ℚ :=
  artist_genre_bonus artist_genres ["ballad"]
    + (if f.tempo < 90 then 1 else 0)
    + (if f.energy < 0.45 then 1 else 0)
    + (if f.acousticness > 0.4 then 1 else 0)
    + (if f.valence < 0.6 then 1 else 0)

/-- `score_pop` (genre.rs); the artist-genre argument is unused in the source. -/
def score_pop (f : AudioFeatures) (_artist_genres : List String) : ℚ :=
  (if f.tempo ≥ 90 ∧ f.tempo ≤ 130 then 1 else 0)
    + (if f.energy ≥ 0.4 ∧ f.energy ≤ 0.8 then 1 else 0)
    + (if f.danceability > 0.5 then 1 else 0)
    + (if f.valence > 0.4 then 1 else 0)

/-- `score_rock` (genre.rs). -/
def score_rock (f : AudioFeatures) (artist_genres : List String) : ℚ :=
  artist_genre_bonus artist_genres ["rock"]
    + (if f.energy > 0.65 then 1 else 0)
    + (if f.loudness > -8 then 1 else 0)
    + (if f.acousticness < 0.3 then 1 else 0)
    + (if f.tempo ≥ 90 ∧ f.tempo ≤ 160 then 1 else 0)

/-- `score_edm` (genre.rs). -/
def score_edm (f : AudioFeatures) (artist_genres : List String) : ℚ :=
  artist_genre_bonus artist_genres ["edm", "house", "techno", "electronic"]
    + (if f.danceability > 0.7 then 1 else 0)
    + (if f.energy > 0.75 then 1 else 0)
    + (if f.tempo > 120 then 1 else 0)
    + (if f.acousticness < 0.2 then 1 else 0)

/-- `score_hiphop` (genre.rs). -/
def score_hiphop (f : AudioFeatures) (artist_genres : List String) : ℚ :=
  artist_genre_bonus artist_genres ["hip hop", "hip-hop", "rap"]
    + (if f.tempo ≥ 70 ∧ f.tempo ≤ 110 then 1 else 0)
    + (if f.speechiness > 0.33 then 1 else 0)
    + (if f.energy > 0.4 then 1 else 0)

/-- `score_rnb` (genre.rs). -/
def score_rnb (f : AudioFeatures) (artist_genres : List String) : ℚ :=
  artist_genre_bonus artist_genres ["r&b", "rnb", "r&b/soul"]
    + (if f.tempo < 100 then 1 else 0)
    + (if f.energy ≥ 0.3 ∧ f.energy ≤ 0.6 then 1 else 0)
    + (if f.danceability > 0.5 then 1 else 0)
    + (if f.valence < 0.6 then 1 else 0)

/-- `score_jazz` (genre.rs). -/
def score_jazz (f : AudioFeatures) (artist_genres : List String) : ℚ :=
  artist_genre_bonus artist_genres ["jazz"]
    + (if f.instrumentalness > 0.5 then 1 else 0)
    + (if f.energy < 0.5 then 1 else 0)
    + (if f.tempo < 120 then 1 else 0)

/-- `score_classical` (genre.rs). -/
def score_classical (f : AudioFeatures) (artist_genres : List String) : ℚ :=
  artist_genre_bonus artist_genres ["classical", "orchestra", "symphony"]
    + (if f.instrumentalness > 0.7 then 1 else 0)
    + (if f.energy < 0.3 then 1 else 0)
    + (if f.loudness < -20 then 1 else 0)

/-- `score_acoustic` (genre.rs); the artist-genre argument is unused. -/
def score_acoustic (f : AudioFeatures) (_artist_genres : List String) : ℚ :=
  (if f.acousticness > 0.75 then 2 else 0)
    + (if f.energy < 0.5 then 1 else 0)

/-- `score_lofi` (genre.rs); the artist-genre argument is unused. -/
def score_lofi (f : AudioFeatures) (_artist_genres : List String) : ℚ :=
  (if f.tempo < 85 then 1 else 0)
    + (if f.energy < 0.4 then 1 else 0)
    + (if f.loudness < -10 then 1 else 0)
    + (if f.instrumentalness > 0.3 then 1 else 0)

/-- `score_indie` (genre.rs). -/
def score_indie (f : AudioFeatures) (artist_genres : List String) (popularity : ℕ) : ℚ :=
  artist_genre_bonus artist_genres ["indie", "alternative"]
    + (if f.energy ≥ 0.4 ∧ f.energy ≤ 0.7 then 1 else 0)
    + (if f.acousticness ≥ 0.3 ∧ f.acousticness ≤ 0.6 then 1 else 0)
    + (if popularity < 60 then 1 else 0)

/-- `score_metal` (genre.rs). -/
def score_metal (f : AudioFeatures) (artist_genres : List String) : ℚ :=
  artist_genre_bonus artist_genres ["metal", "heavy metal", "rock"]
    + (if f.energy > 0.8 then 1 else 0)
    + (if f.loudness > -5 then 1 else 0)
    + (if f.tempo > 120 then 1 else 0)

/-- The `GenreScores` record built at the top of `detect_genre` (genre.rs 92–105). -/
def genreScores (f : AudioFeatures) (artist_genres : List String) (popularity : ℕ) :
    GenreScores :=
  { ballad := score_ballad f artist_genres
    pop := score_pop f artist_genres
    rock := score_rock f artist_genres
    edm := score_edm f artist_genres
    hiphop := score_hiphop f artist_genres
    rnb := score_rnb f artist_genres
    jazz := score_jazz f artist_genres
    classical := score_classical f artist_genres
    acoustic := score_acoustic f artist_genres
    lofi := score_lofi f artist_genres
    indie := score_indie f artist_genres popularity
    metal := score_metal f artist_genres }

/-- The fold of `f32::max` over the twelve scores (genre.rs 108–124); starting
from negative infinity over a non-empty list, it is their maximum. -/
def maxGenreScore (s : GenreScores) : ℚ :=
  max s.ballad (max s.pop (max s.rock (max s.edm (max s.hiphop (max s.rnb
    (max s.jazz (max s.classical (max s.acoustic (max s.lofi
      (max s.indie s.metal))))))))))

/-- The `(genre, confidence)` selection of `detect_genre` (genre.rs 126–159):
if the maximum is positive, the first genre in source test order whose score
equals the maximum wins with confidence `max / 12`; otherwise `Unknown`, 0. -/
def genreLabel (s : GenreScores) : Genre × ℚ :=
  if 0 < maxGenreScore s then
    if s.ballad = maxGenreScore s then (Genre.Ballad, maxGenreScore s / 12)
    else if s.pop = maxGenreScore s then (Genre.Pop, maxGenreScore s / 12)
    else if s.rock = maxGenreScore s then (Genre.Rock, maxGenreScore s / 12)
    else if s.edm = maxGenreScore s then (Genre.Edm, maxGenreScore s / 12)
    else if s.hiphop = maxGenreScore s then (Genre.HipHop, maxGenreScore s / 12)
    else if s.rnb = maxGenreScore s then (Genre.RnB, maxGenreScore s / 12)
    else if s.jazz = maxGenreScore s then (Genre.Jazz, maxGenreScore s / 12)
    else if s.classical = maxGenreScore s then (Genre.Classical, maxGenreScore s / 12)
    else if s.acoustic = maxGenreScore s then (Genre.Acoustic, maxGenreScore s / 12)
    else if s.lofi = maxGenreScore s then (Genre.LoFi, maxGenreScore s / 12)
    else if s.indie = maxGenreScore s then (Genre.Indie, maxGenreScore s / 12)
    else if s.metal = maxGenreScore s then (Genre.Metal, maxGenreScore s / 12)
    else (Genre.Unknown, 0)
  else (Genre.Unknown, 0)

/-- `detect_genre` (genre.rs 87–166). -/
def detect_genre (f : AudioFeatures) (artist_genres : List String) (popularity : ℕ) :
    GenreDetection :=
  { genre := (genreLabel (genreScores f artist_genres popularity)).1
    confidence := (genreLabel (genreScores f artist_genres popularity)).2
    scores := genreScores f artist_genres popularity }

/-! ### Mood scoring (mood.rs lines 127–388) -/

/-- `score_happy` (mood.rs). -/
def score_happy (f : AudioFeatures) : ℚ :=
  (if f.valence > 0.7 then 2 else if f.valence > 0.5 then 1 else 0)
    + (if f.energy > 0.6 then 1 else 0)
    + (if f.danceability > 0.6 then 1 else 0)
    + (if f.loudness > -8 ∧ f.loudness < 0 then 1 else 0)

/-- `score_sad` (mood.rs). -/
def score_sad (f : AudioFeatures) : ℚ :=
  (if f.valence < 0.4 then 2 else if f.valence < 0.6 then 1 else 0)
    + (if f.tempo < 90 then 1 else 0)
    + (if f.energy < 0.5 then 1 else 0)
    + (if f.danceability < 0.4 then 1 else 0)
    + (if f.acousticness > 0.5 then 1 else 0)

/-- `score_energetic` (mood.rs). -/
def score_energetic (f : AudioFeatures) : ℚ :=
  (if f.energy > 0.75 then 2 else if f.energy > 0.6 then 1 else 0)
    + (if f.tempo > 120 then 1 else 0)
    + (if f.danceability > 0.6 then 1 else 0)
    + (if f.loudness > -6 then 1 else 0)
    + (if f.acousticness < 0.3 then 1 else 0)

/-- `score_calm` (mood.rs). -/
def score_calm (f : AudioFeatures) : ℚ :=
  (if f.energy < 0.4 then 2 else if f.energy < 0.6 then 1 else 0)
    + (if f.tempo < 100 then 1 else 0)
    + (if f.danceability < 0.4 then 1 else 0)
    + (if f.valence > 0.5 then 1 else 0)
    + (if f.loudness < -8 then 1 else 0)

/-- `score_angry` (mood.rs). -/
def score_angry (f : AudioFeatures) : ℚ :=
  (if f.energy > 0.8 then 2 else if f.energy > 0.65 then 1 else 0)
    + (if f.valence < 0.3 then 2 else if f.valence < 0.5 then 1 else 0)
    + (if f.tempo > 120 then 1 else 0)
    + (if f.loudness > -5 then 1 else 0)

/-- `score_melancholic` (mood.rs). -/
def score_melancholic (f : AudioFeatures) : ℚ :=
  (if f.valence < 0.5 then 1 else 0)
    + (if f.energy < 0.6 ∧ f.energy > 0.3 then 1 else 0)
    + (if f.tempo < 110 then 1 else 0)
    + (if f.acousticness > 0.4 then 1 else 0)
    + (if f.danceability < 0.5 then 1 else 0)
    + (if f.instrumentalness > 0.2 then 1 else 0)

/-- `score_peaceful` (mood.rs). -/
def score_peaceful (f : AudioFeatures) : ℚ :=
  (if f.energy < 0.45 then 2 else if f.energy < 0.6 then 1 else 0)
    + (if f.tempo < 95 then 1 else 0)
    + (if f.valence > 0.6 then 1 else 0)
    + (if f.loudness < -10 then 1 else 0)
    + (if f.acousticness > 0.5 ∨ f.instrumentalness > 0.4 then 1 else 0)

/-- `score_romantic` (mood.rs). -/
def score_romantic (f : AudioFeatures) : ℚ :=
  (if f.valence > 0.6 then 1 else 0)
    + (if f.tempo ≥ 80 ∧ f.tempo ≤ 110 then 1 else 0)
    + (if f.energy < 0.65 then 1 else 0)
    + (if f.danceability > 0.4 ∧ f.danceability < 0.7 then 1 else 0)
    + (if f.acousticness > 0.3 then 1 else 0)
    + (if f.loudness < -4 then 1 else 0)
    + (if f.speechiness < 0.2 then 1 else 0)

/-- The `MoodScores` record built at the top of `detect_mood` (mood.rs 63–72). -/
def moodScores (f : AudioFeatures) : MoodScores :=
  { happy := score_happy f
    sad := score_sad f
    energetic := score_energetic f
    calm := score_calm f
    angry := score_angry f
    melancholic := score_melancholic f
    peaceful := score_peaceful f
    romantic := score_romantic f }

/-- The fold of `f32::max` over the eight scores (mood.rs 75–87). -/
def maxMoodScore (s : MoodScores) : ℚ :=
  max s.happy (max s.sad (max s.energetic (max s.calm (max s.angry
    (max s.melancholic (max s.peaceful s.romantic))))))

/-- The `(mood, confidence)` selection of `detect_mood` (mood.rs 89–114). -/
def moodLabel (s : MoodScores) : Mood × ℚ :=
  if 0 < maxMoodScore s then
    if s.happy = maxMoodScore s then (Mood.Happy, maxMoodScore s / 8)
    else if s.sad = maxMoodScore s then (Mood.Sad, maxMoodScore s / 8)
    else if s.energetic = maxMoodScore s then (Mood.Energetic, maxMoodScore s / 8)
    else if s.calm = maxMoodScore s then (Mood.Calm, maxMoodScore s / 8)
    else if s.angry = maxMoodScore s then (Mood.Angry, maxMoodScore s / 8)
    else if s.melancholic = maxMoodScore s then (Mood.Melancholic, maxMoodScore s / 8)
    else if s.peaceful = maxMoodScore s then (Mood.Peaceful, maxMoodScore s / 8)
    else if s.romantic = maxMoodScore s then (Mood.Romantic, maxMoodScore s / 8)
    else (Mood.Unknown, 0)
  else (Mood.Unknown, 0)

/-- `detect_mood` (mood.rs 62–121). -/
def detect_mood (f : AudioFeatures) : MoodDetection :=
  { mood := (moodLabel (moodScores f)).1
    confidence := (moodLabel (moodScores f)).2
    scores := moodScores f }

/-! ### Language lookup (language.rs) -/

/-- `enum Language` (language.rs), in source declaration order. -/
inductive Language where
  | English
  | Spanish
  | French
  | German
  | Italian
  | Portuguese
  | Russian
  | Japanese
  | Korean
  | Chinese
  | Vietnamese
  | Thai
  | Hindi
  | Arabic
  | Turkish
  | Swedish
  | Polish
  | Dutch
  | Greek
  | Unknown
deriving DecidableEq, Repr

/-- `Language::code` (language.rs 53–76): the ISO 639-1-style code string. -/
def Language.code : Language → String
  | .English => "en"
  | .Spanish => "es"
  | .French => "fr"
  | .German => "de"
  | .Italian => "it"
  | .Portuguese => "pt"
  | .Russian => "ru"
  | .Japanese => "ja"
  | .Korean => "ko"
  | .Chinese => "zh"
  | .Vietnamese => "vi"
  | .Thai => "th"
  | .Hindi => "hi"
  | .Arabic => "ar"
  | .Turkish => "tr"
  | .Swedish => "sv"
  | .Polish => "pl"
  | .Dutch => "nl"
  | .Greek => "el"
  | .Unknown => "unknown"

/-- `struct LanguageDetection` (language.rs). -/
structure LanguageDetection where
  language : Language
  country_code : Option String
deriving DecidableEq

/-- `country_to_language` (language.rs 106–159).  The Rust `match` lists some
codes in several arms (`"CA"` under English and French, `"CH"` under French,
German and Italian); match arms are tried top to bottom and the first arm
containing the code wins, which the if-chain below reproduces in the exact
source arm order. -/
def country_to_language (country_code : String) : Language :=
  let code_upper := to_uppercase country_code
  if code_upper = "US" ∨ code_upper = "GB" ∨ code_upper = "AU" ∨ code_upper = "NZ"
      ∨ code_upper = "CA" ∨ code_upper = "IE" ∨ code_upper = "ZA" then Language.English
  else if code_upper = "ES" ∨ code_upper = "MX" ∨ code_upper = "AR" ∨ code_upper = "CO"
      ∨ code_upper = "CL" ∨ code_upper = "PE" ∨ code_upper = "VE"
      ∨ code_upper = "CU" then Language.Spanish
  else if code_upper = "FR" ∨ code_upper = "BE" ∨ code_upper = "CH" ∨ code_upper = "CA"
      ∨ code_upper = "SN" ∨ code_upper = "CG" ∨ code_upper = "CD" then Language.French
  else if code_upper = "DE" ∨ code_upper = "AT" ∨ code_upper = "CH" then Language.German
  else if code_upper = "IT" ∨ code_upper = "CH" then Language.Italian
  else if code_upper = "PT" ∨ code_upper = "BR" ∨ code_upper = "AO" ∨ code_upper = "MZ"
      ∨ code_upper = "CV" then Language.Portuguese
  else if code_upper = "RU" ∨ code_upper = "BY" ∨ code_upper = "KZ"
      ∨ code_upper = "UA" then Language.Russian
  else if code_upper = "JP" then Language.Japanese
  else if code_upper = "KR" then Language.Korean
  else if code_upper = "CN" ∨ code_upper = "HK" ∨ code_upper = "TW"
      ∨ code_upper = "SG" then Language.Chinese
  else if code_upper = "VN" then Language.Vietnamese
  else if code_upper = "TH" then Language.Thai
  else if code_upper = "IN" then Language.Hindi
  else if code_upper = "SA" ∨ code_upper = "AE" ∨ code_upper = "EG" ∨ code_upper = "JO"
      ∨ code_upper = "LB" ∨ code_upper = "QA" ∨ code_upper = "KW" then Language.Arabic
  else if code_upper = "TR" then Language.Turkish
  else if code_upper = "SE" then Language.Swedish
  else if code_upper = "NO" ∨ code_upper = "DK" then Language.English
  else if code_upper = "PL" then Language.Polish
  else if code_upper = "GR" then Language.Greek
  else if code_upper = "NL" then Language.Dutch
  else Language.Unknown

/-- `detect_language_from_country` (language.rs 93–103): the function the spec
calls `resolve_language`. -/
def detect_language_from_country (country_code : Option String) : LanguageDetection :=
  { language :=
      match country_code with
      | some code => country_to_language code
      | none => Language.Unknown
    country_code := country_code }

/-! ### Spec-side definitions

The spec describes tie-breaking as "first matching label in the fixed
enumeration order"; the following definitions transcribe that wording so it
can be compared against the detectors' if-chains. -/

/-- The fixed genre enumeration order named by the spec for tie-breaking. -/
def genreEnumOrder : List Genre :=
  [.Ballad, .Pop, .Rock, .Edm, .HipHop, .RnB, .Jazz, .Classical,
   .Acoustic, .LoFi, .Indie, .Metal]

/-- The raw score a genre label attains in a score breakdown. -/
def genreScoreOf (s : GenreScores) : Genre → ℚ
  | .Ballad => s.ballad
  | .Pop => s.pop
  | .Rock => s.rock
  | .Edm => s.edm
  | .HipHop => s.hiphop
  | .RnB => s.rnb
  | .Jazz => s.jazz
  | .Classical => s.classical
  | .Acoustic => s.acoustic
  | .LoFi => s.lofi
  | .Indie => s.indie
  | .Metal => s.metal
  | .Unknown => 0

/-- The fixed mood enumeration order named by the spec for tie-breaking. -/
def moodEnumOrder : List Mood :=
  [.Happy, .Sad, .Energetic, .Calm, .Angry, .Melancholic, .Peaceful, .Romantic]

/-- The raw score a mood label attains in a score breakdown. -/
def moodScoreOf (s : MoodScores) : Mood → ℚ
  | .Happy => s.happy
  | .Sad => s.sad
  | .Energetic => s.energetic
  | .Calm => s.calm
  | .Angry => s.angry
  | .Melancholic => s.melancholic
  | .Peaceful => s.peaceful
  | .Romantic => s.romantic
  | .Unknown => 0

/-- The spec's "label attains the maximum raw score" predicate for genres. -/
def genreMaxPred (s : GenreScores) (g : Genre) : Bool :=
  decide (genreScoreOf s g = maxGenreScore s)

/-- The spec's "label attains the maximum raw score" predicate for moods. -/
def moodMaxPred (s : MoodScores) (m : Mood) : Bool :=
  decide (moodScoreOf s m = maxMoodScore s)

/-! ### Score bounds -/

lemma artist_genre_bonus_nonneg (gs ks : List String) : 0 ≤ artist_genre_bonus gs ks := by
  unfold artist_genre_bonus; split <;> norm_num

lemma artist_genre_bonus_le (gs ks : List String) : artist_genre_bonus gs ks ≤ 5 := by
  unfold artist_genre_bonus; split <;> norm_num

lemma score_ballad_nonneg (f : AudioFeatures) (gs : List String) : 0 ≤ score_ballad f gs := by
  have h := artist_genre_bonus_nonneg gs ["ballad"]
  unfold score_ballad; split_ifs <;> linarith

lemma score_ballad_le (f : AudioFeatures) (gs : List String) : score_ballad f gs ≤ 12 := by
  have h := artist_genre_bonus_le gs ["ballad"]
  unfold score_ballad; split_ifs <;> linarith

lemma score_pop_nonneg (f : AudioFeatures) (gs : List String) : 0 ≤ score_pop f gs := by
  unfold score_pop; split_ifs <;> norm_num

lemma score_pop_le (f : AudioFeatures) (gs : List String) : score_pop f gs ≤ 12 := by
  unfold score_pop; split_ifs <;> norm_num

lemma score_rock_nonneg (f : AudioFeatures) (gs : List String) : 0 ≤ score_rock f gs := by
  have h := artist_genre_bonus_nonneg gs ["rock"]
  unfold score_rock; split_ifs <;> linarith

lemma score_rock_le (f : AudioFeatures) (gs : List String) : score_rock f gs ≤ 12 := by
  have h := artist_genre_bonus_le gs ["rock"]
  unfold score_rock; split_ifs <;> linarith

lemma score_edm_nonneg (f : AudioFeatures) (gs : List String) : 0 ≤ score_edm f gs := by
  have h := artist_genre_bonus_nonneg gs ["edm", "house", "techno", "electronic"]
  unfold score_edm; split_ifs <;> linarith

lemma score_edm_le (f : AudioFeatures) (gs : List String) : score_edm f gs ≤ 12 := by
  have h := artist_genre_bonus_le gs ["edm", "house", "techno", "electronic"]
  unfold score_edm; split_ifs <;> linarith

lemma score_hiphop_nonneg (f : AudioFeatures) (gs : List String) : 0 ≤ score_hiphop f gs := by
  have h := artist_genre_bonus_nonneg gs ["hip hop", "hip-hop", "rap"]
  unfold score_hiphop; split_ifs <;> linarith

lemma score_hiphop_le (f : AudioFeatures) (gs : List String) : score_hiphop f gs ≤ 12 := by
  have h := artist_genre_bonus_le gs ["hip hop", "hip-hop", "rap"]
  unfold score_hiphop; split_ifs <;> linarith

lemma score_rnb_nonneg (f : AudioFeatures) (gs : List String) : 0 ≤ score_rnb f gs := by
  have h := artist_genre_bonus_nonneg gs ["r&b", "rnb", "r&b/soul"]
  unfold score_rnb; split_ifs <;> linarith

lemma score_rnb_le (f : AudioFeatures) (gs : List String) : score_rnb f gs ≤ 12 := by
  have h := artist_genre_bonus_le gs ["r&b", "rnb", "r&b/soul"]
  unfold score_rnb; split_ifs <;> linarith

lemma score_jazz_nonneg (f : AudioFeatures) (gs : List String) : 0 ≤ score_jazz f gs := by
  have h := artist_genre_bonus_nonneg gs ["jazz"]
  unfold score_jazz; split_ifs <;> linarith

lemma score_jazz_le (f : AudioFeatures) (gs : List String) : score_jazz f gs ≤ 12 := by
  have h := artist_genre_bonus_le gs ["jazz"]
  unfold score_jazz; split_ifs <;> linarith

lemma score_classical_nonneg (f : AudioFeatures) (gs : List String) :
    0 ≤ score_classical f gs := by
  have h := artist_genre_bonus_nonneg gs ["classical", "orchestra", "symphony"]
  unfold score_classical; split_ifs <;> linarith

lemma score_classical_le (f : AudioFeatures) (gs : List String) : score_classical f gs ≤ 12 := by
  have h := artist_genre_bonus_le gs ["classical", "orchestra", "symphony"]
  unfold score_classical; split_ifs <;> linarith

lemma score_acoustic_nonneg (f : AudioFeatures) (gs : List String) :
    0 ≤ score_acoustic f gs := by
  unfold score_acoustic; split_ifs <;> norm_num

lemma score_acoustic_le (f : AudioFeatures) (gs : List String) : score_acoustic f gs ≤ 12 := by
  unfold score_acoustic; split_ifs <;> norm_num

lemma score_lofi_nonneg (f : AudioFeatures) (gs : List String) : 0 ≤ score_lofi f gs := by
  unfold score_lofi; split_ifs <;> norm_num

lemma score_lofi_le (f : AudioFeatures) (gs : List String) : score_lofi f gs ≤ 12 := by
  unfold score_lofi; split_ifs <;> norm_num

lemma score_indie_nonneg (f : AudioFeatures) (gs : List String) (p : ℕ) :
    0 ≤ score_indie f gs p := by
  have h := artist_genre_bonus_nonneg gs ["indie", "alternative"]
  unfold score_indie; split_ifs <;> linarith

lemma score_indie_le (f : AudioFeatures) (gs : List String) (p : ℕ) :
    score_indie f gs p ≤ 12 := by
  have h := artist_genre_bonus_le gs ["indie", "alternative"]
  unfold score_indie; split_ifs <;> linarith

lemma score_metal_nonneg (f : AudioFeatures) (gs : List String) : 0 ≤ score_metal f gs := by
  have h := artist_genre_bonus_nonneg gs ["metal", "heavy metal", "rock"]
  unfold score_metal; split_ifs <;> linarith

lemma score_metal_le (f : AudioFeatures) (gs : List String) : score_metal f gs ≤ 12 := by
  have h := artist_genre_bonus_le gs ["metal", "heavy metal", "rock"]
  unfold score_metal; split_ifs <;> linarith

lemma score_happy_nonneg (f : AudioFeatures) : 0 ≤ score_happy f := by
  unfold score_happy; split_ifs <;> norm_num

lemma score_happy_le (f : AudioFeatures) : score_happy f ≤ 8 := by
  unfold score_happy; split_ifs <;> norm_num

lemma score_sad_nonneg (f : AudioFeatures) : 0 ≤ score_sad f := by
  unfold score_sad; split_ifs <;> norm_num

lemma score_sad_le (f : AudioFeatures) : score_sad f ≤ 8 := by
  unfold score_sad; split_ifs <;> norm_num

lemma score_energetic_nonneg (f : AudioFeatures) : 0 ≤ score_energetic f := by
  unfold score_energetic; split_ifs <;> norm_num

lemma score_energetic_le (f : AudioFeatures) : score_energetic f ≤ 8 := by
  unfold score_energetic; split_ifs <;> norm_num

lemma score_calm_nonneg (f : AudioFeatures) : 0 ≤ score_calm f := by
  unfold score_calm; split_ifs <;> norm_num

lemma score_calm_le (f : AudioFeatures) : score_calm f ≤ 8 := by
  unfold score_calm; split_ifs <;> norm_num

lemma score_angry_nonneg (f : AudioFeatures) : 0 ≤ score_angry f := by
  unfold score_angry; split_ifs <;> norm_num

lemma score_angry_le (f : AudioFeatures) : score_angry f ≤ 8 := by
  unfold score_angry; split_ifs <;> norm_num

lemma score_melancholic_nonneg (f : AudioFeatures) : 0 ≤ score_melancholic f := by
  unfold score_melancholic; split_ifs <;> norm_num

lemma score_melancholic_le (f : AudioFeatures) : score_melancholic f ≤ 8 := by
  unfold score_melancholic; split_ifs <;> norm_num

lemma score_peaceful_nonneg (f : AudioFeatures) : 0 ≤ score_peaceful f := by
  unfold score_peaceful; split_ifs <;> norm_num

lemma score_peaceful_le (f : AudioFeatures) : score_peaceful f ≤ 8 := by
  unfold score_peaceful; split_ifs <;> norm_num

lemma score_romantic_nonneg (f : AudioFeatures) : 0 ≤ score_romantic f := by
  unfold score_romantic; split_ifs <;> norm_num

lemma score_romantic_le (f : AudioFeatures) : score_romantic f ≤ 8 := by
  unfold score_romantic; split_ifs <;> norm_num

/-! ### The maximum raw score -/

lemma maxGenreScore_mem (s : GenreScores) :
    maxGenreScore s = s.ballad ∨ maxGenreScore s = s.pop ∨ maxGenreScore s = s.rock ∨
    maxGenreScore s = s.edm ∨ maxGenreScore s = s.hiphop ∨ maxGenreScore s = s.rnb ∨
    maxGenreScore s = s.jazz ∨ maxGenreScore s = s.classical ∨
    maxGenreScore s = s.acoustic ∨ maxGenreScore s = s.lofi ∨
    maxGenreScore s = s.indie ∨ maxGenreScore s = s.metal := by
  unfold maxGenreScore
  rcases max_choice s.ballad (max s.pop (max s.rock (max s.edm (max s.hiphop (max s.rnb
    (max s.jazz (max s.classical (max s.acoustic (max s.lofi
      (max s.indie s.metal)))))))))) with h | h
  · exact Or.inl h
  rw [h]; clear h
  rcases max_choice s.pop (max s.rock (max s.edm (max s.hiphop (max s.rnb
    (max s.jazz (max s.classical (max s.acoustic (max s.lofi
      (max s.indie s.metal))))))))) with h | h
  · exact Or.inr (Or.inl h)
  rw [h]; clear h
  rcases max_choice s.rock (max s.edm (max s.hiphop (max s.rnb
    (max s.jazz (max s.classical (max s.acoustic (max s.lofi
      (max s.indie s.metal)))))))) with h | h
  · exact Or.inr (Or.inr (Or.inl h))
  rw [h]; clear h
  rcases max_choice s.edm (max s.hiphop (max s.rnb (max s.jazz (max s.classical
    (max s.acoustic (max s.lofi (max s.indie s.metal))))))) with h | h
  · exact Or.inr (Or.inr (Or.inr (Or.inl h)))
  rw [h]; clear h
  rcases max_choice s.hiphop (max s.rnb (max s.jazz (max s.classical
    (max s.acoustic (max s.lofi (max s.indie s.metal)))))) with h | h
  · exact Or.inr (Or.inr (Or.inr (Or.inr (Or.inl h))))
  rw [h]; clear h
  rcases max_choice s.rnb (max s.jazz (max s.classical
    (max s.acoustic (max s.lofi (max s.indie s.metal))))) with h | h
  · exact Or.inr (Or.inr (Or.inr (Or.inr (Or.inr (Or.inl h)))))
  rw [h]; clear h
  rcases max_choice s.jazz (max s.classical
    (max s.acoustic (max s.lofi (max s.indie s.metal)))) with h | h
  · exact Or.inr (Or.inr (Or.inr (Or.inr (Or.inr (Or.inr (Or.inl h))))))
  rw [h]; clear h
  rcases max_choice s.classical (max s.acoustic (max s.lofi (max s.indie s.metal)))
    with h | h
  · exact Or.inr (Or.inr (Or.inr (Or.inr (Or.inr (Or.inr (Or.inr (Or.inl h)))))))
  rw [h]; clear h
  rcases max_choice s.acoustic (max s.lofi (max s.indie s.metal)) with h | h
  · exact Or.inr (Or.inr (Or.inr (Or.inr (Or.inr (Or.inr (Or.inr (Or.inr (Or.inl h))))))))
  rw [h]; clear h
  rcases max_choice s.lofi (max s.indie s.metal) with h | h
  · exact Or.inr (Or.inr (Or.inr (Or.inr (Or.inr (Or.inr (Or.inr (Or.inr (Or.inr
      (Or.inl h)))))))))
  rw [h]; clear h
  rcases max_choice s.indie s.metal with h | h
  · exact Or.inr (Or.inr (Or.inr (Or.inr (Or.inr (Or.inr (Or.inr (Or.inr (Or.inr
      (Or.inr (Or.inl h))))))))))
  · exact Or.inr (Or.inr (Or.inr (Or.inr (Or.inr (Or.inr (Or.inr (Or.inr (Or.inr
      (Or.inr (Or.inr h))))))))))

lemma maxMoodScore_mem (s : MoodScores) :
    maxMoodScore s = s.happy ∨ maxMoodScore s = s.sad ∨ maxMoodScore s = s.energetic ∨
    maxMoodScore s = s.calm ∨ maxMoodScore s = s.angry ∨
    maxMoodScore s = s.melancholic ∨ maxMoodScore s = s.peaceful ∨
    maxMoodScore s = s.romantic := by
  unfold maxMoodScore
  rcases max_choice s.happy (max s.sad (max s.energetic (max s.calm (max s.angry
    (max s.melancholic (max s.peaceful s.romantic)))))) with h | h
  · exact Or.inl h
  rw [h]; clear h
  rcases max_choice s.sad (max s.energetic (max s.calm (max s.angry
    (max s.melancholic (max s.peaceful s.romantic))))) with h | h
  · exact Or.inr (Or.inl h)
  rw [h]; clear h
  rcases max_choice s.energetic (max s.calm (max s.angry
    (max s.melancholic (max s.peaceful s.romantic)))) with h | h
  · exact Or.inr (Or.inr (Or.inl h))
  rw [h]; clear h
  rcases max_choice s.calm (max s.angry (max s.melancholic (max s.peaceful s.romantic)))
    with h | h
  · exact Or.inr (Or.inr (Or.inr (Or.inl h)))
  rw [h]; clear h
  rcases max_choice s.angry (max s.melancholic (max s.peaceful s.romantic)) with h | h
  · exact Or.inr (Or.inr (Or.inr (Or.inr (Or.inl h))))
  rw [h]; clear h
  rcases max_choice s.melancholic (max s.peaceful s.romantic) with h | h
  · exact Or.inr (Or.inr (Or.inr (Or.inr (Or.inr (Or.inl h)))))
  rw [h]; clear h
  rcases max_choice s.peaceful s.romantic with h | h
  · exact Or.inr (Or.inr (Or.inr (Or.inr (Or.inr (Or.inr (Or.inl h))))))
  · exact Or.inr (Or.inr (Or.inr (Or.inr (Or.inr (Or.inr (Or.inr h))))))

lemma maxGenreScore_nonneg (f : AudioFeatures) (gs : List String) (p : ℕ) :
    0 ≤ maxGenreScore (genreScores f gs p) :=
  le_trans (score_ballad_nonneg f gs) (le_max_left _ _)

lemma maxGenreScore_le (f : AudioFeatures) (gs : List String) (p : ℕ) :
    maxGenreScore (genreScores f gs p) ≤ 12 := by
  unfold maxGenreScore
  simp only [max_le_iff]
  exact ⟨score_ballad_le f gs, score_pop_le f gs, score_rock_le f gs, score_edm_le f gs,
    score_hiphop_le f gs, score_rnb_le f gs, score_jazz_le f gs, score_classical_le f gs,
    score_acoustic_le f gs, score_lofi_le f gs, score_indie_le f gs p, score_metal_le f gs⟩

lemma maxMoodScore_nonneg (f : AudioFeatures) : 0 ≤ maxMoodScore (moodScores f) :=
  le_trans (score_happy_nonneg f) (le_max_left _ _)

lemma maxMoodScore_le (f : AudioFeatures) : maxMoodScore (moodScores f) ≤ 8 := by
  unfold maxMoodScore
  simp only [max_le_iff]
  exact ⟨score_happy_le f, score_sad_le f, score_energetic_le f, score_calm_le f,
    score_angry_le f, score_melancholic_le f, score_peaceful_le f, score_romantic_le f⟩

/-- For every input some genre rule fires: `score_pop` awards a point when
`valence > 0.4` and `score_ballad` awards a point when `valence < 0.6`, and the
two conditions cover all rationals, so the maximum raw genre score is positive. -/
lemma maxGenreScore_pos (f : AudioFeatures) (gs : List String) (p : ℕ) :
    0 < maxGenreScore (genreScores f gs p) := by
  rcases le_or_lt f.valence 0.4 with hv | hv
  · have hb : 1 ≤ score_ballad f gs := by
      have hbo := artist_genre_bonus_nonneg gs ["ballad"]
      unfold score_ballad; split_ifs <;> linarith
    have hle : score_ballad f gs ≤ maxGenreScore (genreScores f gs p) := le_max_left _ _
    linarith
  · have hp : 1 ≤ score_pop f gs := by
      unfold score_pop; split_ifs <;> linarith
    have hle : score_pop f gs ≤ maxGenreScore (genreScores f gs p) :=
      le_trans (le_max_left _ _) (le_max_right _ _)
    linarith

/-- For every input some mood rule fires: `score_happy` awards a point when
`valence > 0.5` and `score_sad` awards a point when `valence < 0.6`, so the
maximum raw mood score is positive. -/
lemma maxMoodScore_pos (f : AudioFeatures) : 0 < maxMoodScore (moodScores f) := by
  rcases le_or_lt f.valence 0.5 with hv | hv
  · have hs : 1 ≤ score_sad f := by
      unfold score_sad; split_ifs <;> linarith
    have hle : score_sad f ≤ maxMoodScore (moodScores f) :=
      le_trans (le_max_left _ _) (le_max_right _ _)
    linarith
  · have hh : 1 ≤ score_happy f := by
      unfold score_happy; split_ifs <;> linarith
    have hle : score_happy f ≤ maxMoodScore (moodScores f) := le_max_left _ _
    linarith

/-! ### The label selection if-chains -/

lemma moodLabel_of_pos (s : MoodScores) (h : 0 < maxMoodScore s) :
    (moodLabel s).1 ≠ Mood.Unknown ∧ (moodLabel s).2 = maxMoodScore s / 8 := by
  have hmem := maxMoodScore_mem s
  unfold moodLabel
  rw [if_pos h]
  rcases eq_or_ne s.happy (maxMoodScore s) with h1 | h1
  · rw [if_pos h1]
    exact ⟨fun hc => Mood.noConfusion hc, rfl⟩
  rw [if_neg h1]
  rcases eq_or_ne s.sad (maxMoodScore s) with h2 | h2
  · rw [if_pos h2]
    exact ⟨fun hc => Mood.noConfusion hc, rfl⟩
  rw [if_neg h2]
  rcases eq_or_ne s.energetic (maxMoodScore s) with h3 | h3
  · rw [if_pos h3]
    exact ⟨fun hc => Mood.noConfusion hc, rfl⟩
  rw [if_neg h3]
  rcases eq_or_ne s.calm (maxMoodScore s) with h4 | h4
  · rw [if_pos h4]
    exact ⟨fun hc => Mood.noConfusion hc, rfl⟩
  rw [if_neg h4]
  rcases eq_or_ne s.angry (maxMoodScore s) with h5 | h5
  · rw [if_pos h5]
    exact ⟨fun hc => Mood.noConfusion hc, rfl⟩
  rw [if_neg h5]
  rcases eq_or_ne s.melancholic (maxMoodScore s) with h6 | h6
  · rw [if_pos h6]
    exact ⟨fun hc => Mood.noConfusion hc, rfl⟩
  rw [if_neg h6]
  rcases eq_or_ne s.peaceful (maxMoodScore s) with h7 | h7
  · rw [if_pos h7]
    exact ⟨fun hc => Mood.noConfusion hc, rfl⟩
  rw [if_neg h7]
  rcases eq_or_ne s.romantic (maxMoodScore s) with h8 | h8
  · rw [if_pos h8]
    exact ⟨fun hc => Mood.noConfusion hc, rfl⟩
  rw [if_neg h8]
  rcases hmem with h' | h' | h' | h' | h' | h' | h' | h'
  exacts [absurd h'.symm h1, absurd h'.symm h2, absurd h'.symm h3, absurd h'.symm h4, absurd h'.symm h5, absurd h'.symm h6, absurd h'.symm h7, absurd h'.symm h8]

lemma moodLabel_of_nonpos (s : MoodScores) (h : maxMoodScore s ≤ 0) :
    moodLabel s = (Mood.Unknown, 0) := by
  unfold moodLabel
  rw [if_neg (not_lt.mpr h)]

lemma moodLabel_find (s : MoodScores) (h : 0 < maxMoodScore s) :
    moodEnumOrder.find? (moodMaxPred s) = some (moodLabel s).1 := by
  have hmem := maxMoodScore_mem s
  unfold moodLabel moodEnumOrder
  rw [if_pos h]
  rcases eq_or_ne s.happy (maxMoodScore s) with h1 | h1
  · rw [if_pos h1,
      List.find?_cons_of_pos (p := moodMaxPred s) (a := Mood.Happy) _ (decide_eq_true h1)]
  rw [if_neg h1, List.find?_cons_of_neg (p := moodMaxPred s) (a := Mood.Happy) _
    (fun hb => h1 (of_decide_eq_true hb))]
  rcases eq_or_ne s.sad (maxMoodScore s) with h2 | h2
  · rw [if_pos h2,
      List.find?_cons_of_pos (p := moodMaxPred s) (a := Mood.Sad) _ (decide_eq_true h2)]
  rw [if_neg h2, List.find?_cons_of_neg (p := moodMaxPred s) (a := Mood.Sad) _
    (fun hb => h2 (of_decide_eq_true hb))]
  rcases eq_or_ne s.energetic (maxMoodScore s) with h3 | h3
  · rw [if_pos h3,
      List.find?_cons_of_pos (p := moodMaxPred s) (a := Mood.Energetic) _ (decide_eq_true h3)]
  rw [if_neg h3, List.find?_cons_of_neg (p := moodMaxPred s) (a := Mood.Energetic) _
    (fun hb => h3 (of_decide_eq_true hb))]
  rcases eq_or_ne s.calm (maxMoodScore s) with h4 | h4
  · rw [if_pos h4,
      List.find?_cons_of_pos (p := moodMaxPred s) (a := Mood.Calm) _ (decide_eq_true h4)]
  rw [if_neg h4, List.find?_cons_of_neg (p := moodMaxPred s) (a := Mood.Calm) _
    (fun hb => h4 (of_decide_eq_true hb))]
  rcases eq_or_ne s.angry (maxMoodScore s) with h5 | h5
  · rw [if_pos h5,
      List.find?_cons_of_pos (p := moodMaxPred s) (a := Mood.Angry) _ (decide_eq_true h5)]
  rw [if_neg h5, List.find?_cons_of_neg (p := moodMaxPred s) (a := Mood.Angry) _
    (fun hb => h5 (of_decide_eq_true hb))]
  rcases eq_or_ne s.melancholic (maxMoodScore s) with h6 | h6
  · rw [if_pos h6,
      List.find?_cons_of_pos (p := moodMaxPred s) (a := Mood.Melancholic) _ (decide_eq_true h6)]
  rw [if_neg h6, List.find?_cons_of_neg (p := moodMaxPred s) (a := Mood.Melancholic) _
    (fun hb => h6 (of_decide_eq_true hb))]
  rcases eq_or_ne s.peaceful (maxMoodScore s) with h7 | h7
  · rw [if_pos h7,
      List.find?_cons_of_pos (p := moodMaxPred s) (a := Mood.Peaceful) _ (decide_eq_true h7)]
  rw [if_neg h7, List.find?_cons_of_neg (p := moodMaxPred s) (a := Mood.Peaceful) _
    (fun hb => h7 (of_decide_eq_true hb))]
  rcases eq_or_ne s.romantic (maxMoodScore s) with h8 | h8
  · rw [if_pos h8,
      List.find?_cons_of_pos (p := moodMaxPred s) (a := Mood.Romantic) _ (decide_eq_true h8)]
  rw [if_neg h8, List.find?_cons_of_neg (p := moodMaxPred s) (a := Mood.Romantic) _
    (fun hb => h8 (of_decide_eq_true hb))]
  rw [List.find?_nil]
  rcases hmem with h' | h' | h' | h' | h' | h' | h' | h'
  exacts [absurd h'.symm h1, absurd h'.symm h2, absurd h'.symm h3, absurd h'.symm h4, absurd h'.symm h5, absurd h'.symm h6, absurd h'.symm h7, absurd h'.symm h8]

lemma genreLabel_of_pos (s : GenreScores) (h : 0 < maxGenreScore s) :
    (genreLabel s).1 ≠ Genre.Unknown ∧ (genreLabel s).2 = maxGenreScore s / 12 := by
  have hmem := maxGenreScore_mem s
  unfold genreLabel
  rw [if_pos h]
  rcases eq_or_ne s.ballad (maxGenreScore s) with h1 | h1
  · rw [if_pos h1]
    exact ⟨fun hc => Genre.noConfusion hc, rfl⟩
  rw [if_neg h1]
  rcases eq_or_ne s.pop (maxGenreScore s) with h2 | h2
  · rw [if_pos h2]
    exact ⟨fun hc => Genre.noConfusion hc, rfl⟩
  rw [if_neg h2]
  rcases eq_or_ne s.rock (maxGenreScore s) with h3 | h3
  · rw [if_pos h3]
    exact ⟨fun hc => Genre.noConfusion hc, rfl⟩
  rw [if_neg h3]
  rcases eq_or_ne s.edm (maxGenreScore s) with h4 | h4
  · rw [if_pos h4]
    exact ⟨fun hc => Genre.noConfusion hc, rfl⟩
  rw [if_neg h4]
  rcases eq_or_ne s.hiphop (maxGenreScore s) with h5 | h5
  · rw [if_pos h5]
    exact ⟨fun hc => Genre.noConfusion hc, rfl⟩
  rw [if_neg h5]
  rcases eq_or_ne s.rnb (maxGenreScore s) with h6 | h6
  · rw [if_pos h6]
    exact ⟨fun hc => Genre.noConfusion hc, rfl⟩
  rw [if_neg h6]
  rcases eq_or_ne s.jazz (maxGenreScore s) with h7 | h7
  · rw [if_pos h7]
    exact ⟨fun hc => Genre.noConfusion hc, rfl⟩
  rw [if_neg h7]
  rcases eq_or_ne s.classical (maxGenreScore s) with h8 | h8
  · rw [if_pos h8]
    exact ⟨fun hc => Genre.noConfusion hc, rfl⟩
  rw [if_neg h8]
  rcases eq_or_ne s.acoustic (maxGenreScore s) with h9 | h9
  · rw [if_pos h9]
    exact ⟨fun hc => Genre.noConfusion hc, rfl⟩
  rw [if_neg h9]
  rcases eq_or_ne s.lofi (maxGenreScore s) with h10 | h10
  · rw [if_pos h10]
    exact ⟨fun hc => Genre.noConfusion hc, rfl⟩
  rw [if_neg h10]
  rcases eq_or_ne s.indie (maxGenreScore s) with h11 | h11
  · rw [if_pos h11]
    exact ⟨fun hc => Genre.noConfusion hc, rfl⟩
  rw [if_neg h11]
  rcases eq_or_ne s.metal (maxGenreScore s) with h12 | h12
  · rw [if_pos h12]
    exact ⟨fun hc => Genre.noConfusion hc, rfl⟩
  rw [if_neg h12]
  rcases hmem with h' | h' | h' | h' | h' | h' | h' | h' | h' | h' | h' | h'
  exacts [absurd h'.symm h1, absurd h'.symm h2, absurd h'.symm h3, absurd h'.symm h4, absurd h'.symm h5, absurd h'.symm h6, absurd h'.symm h7, absurd h'.symm h8, absurd h'.symm h9, absurd h'.symm h10, absurd h'.symm h11, absurd h'.symm h12]

lemma genreLabel_of_nonpos (s : GenreScores) (h : maxGenreScore s ≤ 0) :
    genreLabel s = (Genre.Unknown, 0) := by
  unfold genreLabel
  rw [if_neg (not_lt.mpr h)]

lemma genreLabel_find (s : GenreScores) (h : 0 < maxGenreScore s) :
    genreEnumOrder.find? (genreMaxPred s) = some (genreLabel s).1 := by
  have hmem := maxGenreScore_mem s
  unfold genreLabel genreEnumOrder
  rw [if_pos h]
  rcases eq_or_ne s.ballad (maxGenreScore s) with h1 | h1
  · rw [if_pos h1,
      List.find?_cons_of_pos (p := genreMaxPred s) (a := Genre.Ballad) _ (decide_eq_true h1)]
  rw [if_neg h1, List.find?_cons_of_neg (p := genreMaxPred s) (a := Genre.Ballad) _
    (fun hb => h1 (of_decide_eq_true hb))]
  rcases eq_or_ne s.pop (maxGenreScore s) with h2 | h2
  · rw [if_pos h2,
      List.find?_cons_of_pos (p := genreMaxPred s) (a := Genre.Pop) _ (decide_eq_true h2)]
  rw [if_neg h2, List.find?_cons_of_neg (p := genreMaxPred s) (a := Genre.Pop) _
    (fun hb => h2 (of_decide_eq_true hb))]
  rcases eq_or_ne s.rock (maxGenreScore s) with h3 | h3
  · rw [if_pos h3,
      List.find?_cons_of_pos (p := genreMaxPred s) (a := Genre.Rock) _ (decide_eq_true h3)]
  rw [if_neg h3, List.find?_cons_of_neg (p := genreMaxPred s) (a := Genre.Rock) _
    (fun hb => h3 (of_decide_eq_true hb))]
  rcases eq_or_ne s.edm (maxGenreScore s) with h4 | h4
  · rw [if_pos h4,
      List.find?_cons_of_pos (p := genreMaxPred s) (a := Genre.Edm) _ (decide_eq_true h4)]
  rw [if_neg h4, List.find?_cons_of_neg (p := genreMaxPred s) (a := Genre.Edm) _
    (fun hb => h4 (of_decide_eq_true hb))]
  rcases eq_or_ne s.hiphop (maxGenreScore s) with h5 | h5
  · rw [if_pos h5,
      List.find?_cons_of_pos (p := genreMaxPred s) (a := Genre.HipHop) _ (decide_eq_true h5)]
  rw [if_neg h5, List.find?_cons_of_neg (p := genreMaxPred s) (a := Genre.HipHop) _
    (fun hb => h5 (of_decide_eq_true hb))]
  rcases eq_or_ne s.rnb (maxGenreScore s) with h6 | h6
  · rw [if_pos h6,
      List.find?_cons_of_pos (p := genreMaxPred s) (a := Genre.RnB) _ (decide_eq_true h6)]
  rw [if_neg h6, List.find?_cons_of_neg (p := genreMaxPred s) (a := Genre.RnB) _
    (fun hb => h6 (of_decide_eq_true hb))]
  rcases eq_or_ne s.jazz (maxGenreScore s) with h7 | h7
  · rw [if_pos h7,
      List.find?_cons_of_pos (p := genreMaxPred s) (a := Genre.Jazz) _ (decide_eq_true h7)]
  rw [if_neg h7, List.find?_cons_of_neg (p := genreMaxPred s) (a := Genre.Jazz) _
    (fun hb => h7 (of_decide_eq_true hb))]
  rcases eq_or_ne s.classical (maxGenreScore s) with h8 | h8
  · rw [if_pos h8,
      List.find?_cons_of_pos (p := genreMaxPred s) (a := Genre.Classical) _ (decide_eq_true h8)]
  rw [if_neg h8, List.find?_cons_of_neg (p := genreMaxPred s) (a := Genre.Classical) _
    (fun hb => h8 (of_decide_eq_true hb))]
  rcases eq_or_ne s.acoustic (maxGenreScore s) with h9 | h9
  · rw [if_pos h9,
      List.find?_cons_of_pos (p := genreMaxPred s) (a := Genre.Acoustic) _ (decide_eq_true h9)]
  rw [if_neg h9, List.find?_cons_of_neg (p := genreMaxPred s) (a := Genre.Acoustic) _
    (fun hb => h9 (of_decide_eq_true hb))]
  rcases eq_or_ne s.lofi (maxGenreScore s) with h10 | h10
  · rw [if_pos h10,
      List.find?_cons_of_pos (p := genreMaxPred s) (a := Genre.LoFi) _ (decide_eq_true h10)]
  rw [if_neg h10, List.find?_cons_of_neg (p := genreMaxPred s) (a := Genre.LoFi) _
    (fun hb => h10 (of_decide_eq_true hb))]
  rcases eq_or_ne s.indie (maxGenreScore s) with h11 | h11
  · rw [if_pos h11,
      List.find?_cons_of_pos (p := genreMaxPred s) (a := Genre.Indie) _ (decide_eq_true h11)]
  rw [if_neg h11, List.find?_cons_of_neg (p := genreMaxPred s) (a := Genre.Indie) _
    (fun hb => h11 (of_decide_eq_true hb))]
  rcases eq_or_ne s.metal (maxGenreScore s) with h12 | h12
  · rw [if_pos h12,
      List.find?_cons_of_pos (p := genreMaxPred s) (a := Genre.Metal) _ (decide_eq_true h12)]
  rw [if_neg h12, List.find?_cons_of_neg (p := genreMaxPred s) (a := Genre.Metal) _
    (fun hb => h12 (of_decide_eq_true hb))]
  rw [List.find?_nil]
  rcases hmem with h' | h' | h' | h' | h' | h' | h' | h' | h' | h' | h' | h'
  exacts [absurd h'.symm h1, absurd h'.symm h2, absurd h'.symm h3, absurd h'.symm h4, absurd h'.symm h5, absurd h'.symm h6, absurd h'.symm h7, absurd h'.symm h8, absurd h'.symm h9, absurd h'.symm h10, absurd h'.symm h11, absurd h'.symm h12]

/-! ### Claim theorems -/

set_option maxRecDepth 40000
set_option maxHeartbeats 1000000

/-- C1: the spec's mood scenario (tempo=130, energy=0.8, valence=0.85,
danceability=0.75, acousticness=0.2, instrumentalness=0.1, loudness=-5.0,
speechiness=0.05) claims `detect_mood` returns Happy with confidence > 0.4,
and the repository's own `test_happy_detection` asserts the same; the code
actually scores Energetic 6 (energy>0.75, tempo>120, danceability>0.6,
loudness>-6, acousticness<0.3) against Happy 5, so it returns Energetic with
confidence 6/8 = 3/4.  This theorem evaluates the code at that input. -/
theorem happy_scenario_code_result :
    detect_mood
        { tempo := 130, energy := 0.8, valence := 0.85, danceability := 0.75,
          acousticness := 0.2, instrumentalness := 0.1, loudness := -5,
          speechiness := 0.05 } =
      { mood := Mood.Energetic, confidence := 3 / 4,
        scores :=
          { happy := 5, sad := 0, energetic := 6, calm := 1, angry := 2,
            melancholic := 0, peaceful := 1, romantic := 3 } } := by
  norm_num [detect_mood, moodLabel, moodScores, score_happy, score_sad, score_energetic,
    score_calm, score_angry, score_melancholic, score_peaceful, score_romantic,
    maxMoodScore, max_def]

/-- C2: for every input the label returned by `detect_genre` is the first
genre in the enumeration order Ballad, Pop, Rock, Edm, HipHop, RnB, Jazz,
Classical, Acoustic, LoFi, Indie, Metal whose raw score attains the maximum,
and the label returned by `detect_mood` is the first mood in the order Happy,
Sad, Energetic, Calm, Angry, Melancholic, Peaceful, Romantic whose raw score
attains the maximum; in particular every tie at the maximum resolves to the
tied label that comes first in the fixed enumeration order. -/
theorem detected_label_is_first_max_in_enumeration
    (f : AudioFeatures) (gs : List String) (p : ℕ) :
    genreEnumOrder.find? (genreMaxPred (genreScores f gs p)) =
        some (detect_genre f gs p).genre ∧
    moodEnumOrder.find? (moodMaxPred (moodScores f)) = some (detect_mood f).mood :=
  ⟨genreLabel_find (genreScores f gs p) (maxGenreScore_pos f gs p),
   moodLabel_find (moodScores f) (maxMoodScore_pos f)⟩

/-- C3: for every input the confidence returned by `detect_genre` and by
`detect_mood` lies in [0,1] (the maximum raw score never exceeds the divisor,
12 for genre and 8 for mood), and the confidence is 0 iff the maximum raw
score across all classes is 0. -/
theorem confidence_unit_interval_and_zero_iff
    (f : AudioFeatures) (gs : List String) (p : ℕ) :
    (0 ≤ (detect_genre f gs p).confidence ∧ (detect_genre f gs p).confidence ≤ 1 ∧
      ((detect_genre f gs p).confidence = 0 ↔ maxGenreScore (genreScores f gs p) = 0)) ∧
    (0 ≤ (detect_mood f).confidence ∧ (detect_mood f).confidence ≤ 1 ∧
      ((detect_mood f).confidence = 0 ↔ maxMoodScore (moodScores f) = 0)) := by
  have hgp := maxGenreScore_pos f gs p
  have hgl := maxGenreScore_le f gs p
  have hgc : (detect_genre f gs p).confidence = maxGenreScore (genreScores f gs p) / 12 :=
    (genreLabel_of_pos (genreScores f gs p) hgp).2
  have hmp := maxMoodScore_pos f
  have hml := maxMoodScore_le f
  have hmc : (detect_mood f).confidence = maxMoodScore (moodScores f) / 8 :=
    (moodLabel_of_pos (moodScores f) hmp).2
  refine ⟨⟨?_, ?_, ?_⟩, ?_, ?_, ?_⟩
  · rw [hgc]; exact div_nonneg (le_of_lt hgp) (by norm_num)
  · rw [hgc, div_le_one (by norm_num)]; linarith
  · exact iff_of_false
      (by rw [hgc]; exact div_ne_zero (ne_of_gt hgp) (by norm_num)) (ne_of_gt hgp)
  · rw [hmc]; exact div_nonneg (le_of_lt hmp) (by norm_num)
  · rw [hmc, div_le_one (by norm_num)]; linarith
  · exact iff_of_false
      (by rw [hmc]; exact div_ne_zero (ne_of_gt hmp) (by norm_num)) (ne_of_gt hmp)

/-- C4: for every input, every class's raw score in the breakdown returned by
`detect_genre` and by `detect_mood` is ≥ 0: each scorer only adds non-negative
weights to an accumulator that starts at 0. -/
theorem breakdown_scores_nonneg (f : AudioFeatures) (gs : List String) (p : ℕ) :
    (0 ≤ (detect_genre f gs p).scores.ballad ∧ 0 ≤ (detect_genre f gs p).scores.pop ∧
      0 ≤ (detect_genre f gs p).scores.rock ∧ 0 ≤ (detect_genre f gs p).scores.edm ∧
      0 ≤ (detect_genre f gs p).scores.hiphop ∧ 0 ≤ (detect_genre f gs p).scores.rnb ∧
      0 ≤ (detect_genre f gs p).scores.jazz ∧ 0 ≤ (detect_genre f gs p).scores.classical ∧
      0 ≤ (detect_genre f gs p).scores.acoustic ∧ 0 ≤ (detect_genre f gs p).scores.lofi ∧
      0 ≤ (detect_genre f gs p).scores.indie ∧ 0 ≤ (detect_genre f gs p).scores.metal) ∧
    (0 ≤ (detect_mood f).scores.happy ∧ 0 ≤ (detect_mood f).scores.sad ∧
      0 ≤ (detect_mood f).scores.energetic ∧ 0 ≤ (detect_mood f).scores.calm ∧
      0 ≤ (detect_mood f).scores.angry ∧ 0 ≤ (detect_mood f).scores.melancholic ∧
      0 ≤ (detect_mood f).scores.peaceful ∧ 0 ≤ (detect_mood f).scores.romantic) :=
  ⟨⟨score_ballad_nonneg f gs, score_pop_nonneg f gs, score_rock_nonneg f gs,
    score_edm_nonneg f gs, score_hiphop_nonneg f gs, score_rnb_nonneg f gs,
    score_jazz_nonneg f gs, score_classical_nonneg f gs, score_acoustic_nonneg f gs,
    score_lofi_nonneg f gs, score_indie_nonneg f gs p, score_metal_nonneg f gs⟩,
   ⟨score_happy_nonneg f, score_sad_nonneg f, score_energetic_nonneg f,
    score_calm_nonneg f, score_angry_nonneg f, score_melancholic_nonneg f,
    score_peaceful_nonneg f, score_romantic_nonneg f⟩⟩

/-- C5: no classifier call fails — `detect_genre`, `detect_mood` and
`detect_language_from_country` are total functions of their inputs (any
feature values, any tag list including the empty one, any or no country
code), and the returned label is `Unknown` exactly when the maximum raw score
is 0, which is also exactly when the confidence is 0; an absent country code
degrades to the `Unknown` language. -/
theorem classifiers_total_unknown_iff_no_signal
    (f : AudioFeatures) (gs : List String) (p : ℕ) :
    ((detect_genre f gs p).genre = Genre.Unknown ↔
        maxGenreScore (genreScores f gs p) = 0) ∧
    ((detect_genre f gs p).genre = Genre.Unknown ↔ (detect_genre f gs p).confidence = 0) ∧
    ((detect_mood f).mood = Mood.Unknown ↔ maxMoodScore (moodScores f) = 0) ∧
    ((detect_mood f).mood = Mood.Unknown ↔ (detect_mood f).confidence = 0) ∧
    (detect_language_from_country none).language = Language.Unknown := by
  have hgp := maxGenreScore_pos f gs p
  obtain ⟨hgn, hgc⟩ := genreLabel_of_pos (genreScores f gs p) hgp
  have hmp := maxMoodScore_pos f
  obtain ⟨hmn, hmc⟩ := moodLabel_of_pos (moodScores f) hmp
  refine ⟨iff_of_false hgn (ne_of_gt hgp), iff_of_false hgn ?_,
    iff_of_false hmn (ne_of_gt hmp), iff_of_false hmn ?_, rfl⟩
  · show ¬(genreLabel (genreScores f gs p)).2 = 0
    rw [hgc]; exact div_ne_zero (ne_of_gt hgp) (by norm_num)
  · show ¬(moodLabel (moodScores f)).2 = 0
    rw [hmc]; exact div_ne_zero (ne_of_gt hmp) (by norm_num)

/-- C6 counterexample: `resolve_language(Some("us"))` and
`resolve_language(Some("US"))` do NOT yield identical results — the
`country_code` field echoes the caller's exact string, so the two
`LanguageDetection` values differ in that field. -/
theorem resolve_language_case_results_differ :
    detect_language_from_country (some "us") ≠ detect_language_from_country (some "US") := by
  decide

/-- C6 amended: the country-code lookup is case-insensitive — `resolve_language`
on "us" and on "US" resolves to the identical language (English), while the
returned `country_code` field carries back each caller's own code unchanged,
so the full results differ only in that echoed field. -/
theorem resolve_language_case_insensitive_same_language :
    (detect_language_from_country (some "us")).language =
        (detect_language_from_country (some "US")).language ∧
    (detect_language_from_country (some "us")).language = Language.English ∧
    (detect_language_from_country (some "us")).country_code = some "us" ∧
    (detect_language_from_country (some "US")).country_code = some "US" := by
  refine ⟨by decide, by decide, rfl, rfl⟩

/-- C7: ambiguous country codes resolve to the first matching entry in the
fixed table order: "CH" (listed under French, German and Italian) resolves to
French, and "CA" (listed under English and French) resolves to English. -/
theorem ambiguous_codes_first_table_match :
    (detect_language_from_country (some "CH")).language = Language.French ∧
    (detect_language_from_country (some "CA")).language = Language.English := by
  refine ⟨by decide, by decide⟩

/-- C8: the spec's tag-bonus scenario: the neutral feature vector (tempo=100,
energy=0.5, valence=0.5, danceability=0.5, acousticness=0.5,
instrumentalness=0.3, loudness=-8.0, speechiness=0.1) with tags
["electronic","edm"] and popularity 70 makes `detect_genre` return Edm with
confidence 5/12 > 0.4: the tag bonus adds exactly 5.0 to the Edm score
because the lower-cased tag "electronic" contains the Edm keyword substring
"electronic". -/
theorem edm_tag_bonus_scenario :
    (detect_genre
        { tempo := 100, energy := 0.5, valence := 0.5, danceability := 0.5,
          acousticness := 0.5, instrumentalness := 0.3, loudness := -8,
          speechiness := 0.1 } ["electronic", "edm"] 70).genre = Genre.Edm ∧
    0.4 < (detect_genre
        { tempo := 100, energy := 0.5, valence := 0.5, danceability := 0.5,
          acousticness := 0.5, instrumentalness := 0.3, loudness := -8,
          speechiness := 0.1 } ["electronic", "edm"] 70).confidence := by
  have h1 : artist_genre_bonus ["electronic", "edm"]
      ["edm", "house", "techno", "electronic"] = 5 := by decide
  have h2 : artist_genre_bonus ["electronic", "edm"] ["ballad"] = 0 := by decide
  have h3 : artist_genre_bonus ["electronic", "edm"] ["rock"] = 0 := by decide
  have h4 : artist_genre_bonus ["electronic", "edm"] ["hip hop", "hip-hop", "rap"] = 0 := by
    decide
  have h5 : artist_genre_bonus ["electronic", "edm"] ["r&b", "rnb", "r&b/soul"] = 0 := by
    decide
  have h6 : artist_genre_bonus ["electronic", "edm"] ["jazz"] = 0 := by decide
  have h7 : artist_genre_bonus ["electronic", "edm"]
      ["classical", "orchestra", "symphony"] = 0 := by decide
  have h8 : artist_genre_bonus ["electronic", "edm"] ["indie", "alternative"] = 0 := by
    decide
  have h9 : artist_genre_bonus ["electronic", "edm"] ["metal", "heavy metal", "rock"] = 0 := by
    decide
  have hs : genreScores
      { tempo := 100, energy := 0.5, valence := 0.5, danceability := 0.5,
        acousticness := 0.5, instrumentalness := 0.3, loudness := -8,
        speechiness := 0.1 } ["electronic", "edm"] 70 =
      { ballad := 2, pop := 3, rock := 1, edm := 5, hiphop := 2, rnb := 2, jazz := 1,
        classical := 0, acoustic := 0, lofi := 0, indie := 2, metal := 0 } := by
    norm_num [genreScores, score_ballad, score_pop, score_rock, score_edm, score_hiphop,
      score_rnb, score_jazz, score_classical, score_acoustic, score_lofi, score_indie,
      score_metal, h1, h2, h3, h4, h5, h6, h7, h8, h9]
  constructor
  · show (genreLabel (genreScores _ _ _)).1 = Genre.Edm
    rw [hs]; norm_num [genreLabel, maxGenreScore, max_def]
  · show 0.4 < (genreLabel (genreScores _ _ _)).2
    rw [hs]; norm_num [genreLabel, maxGenreScore, max_def]

/-- C9: `resolve_language(None)` returns the Unknown label with no country
code; `resolve_language(Some("JP"))` returns Japanese, whose `code()` is
"ja"; and for every call the returned `country_code` field is exactly the
caller-supplied code, casing preserved. -/
theorem language_scenarios_and_country_code_echo :
    (detect_language_from_country none).language = Language.Unknown ∧
    (detect_language_from_country none).country_code = none ∧
    (detect_language_from_country (some "JP")).language = Language.Japanese ∧
    ((detect_language_from_country (some "JP")).language).code = "ja" ∧
    ∀ cc : Option String, (detect_language_from_country cc).country_code = cc := by
  refine ⟨rfl, rfl, by decide, by decide, fun cc => rfl⟩

/-- C10: the Nordic country codes "NO" and "DK" are deliberately mapped to
English (not Swedish, not Unknown), while only "SE" maps to Swedish. -/
theorem nordic_codes_resolve_to_english :
    (detect_language_from_country (some "NO")).language = Language.English ∧
    (detect_language_from_country (some "DK")).language = Language.English ∧
    (detect_language_from_country (some "SE")).language = Language.Swedish ∧
    (detect_language_from_country (some "NO")).language ≠ Language.Swedish ∧
    (detect_language_from_country (some "DK")).language ≠ Language.Unknown := by
  refine ⟨by decide, by decide, by decide, by decide, by decide⟩

end SpotifyDashboard
